import Mathlib

/-!
Shallow embedding of `src/faucet/fctl.py`: a point-in-time reporting tool
that scrapes Prometheus-format metrics endpoints, filters the parsed
samples by metric name / required labels / a nonzero predicate, decodes
certain values and renders a delimited text report.

Network requests, the external exposition parser and the retry clock are
modelled as explicit oracles together with an event trace; Python floats
are modelled as rationals with truncation toward zero; Python's dynamic
typing slips (a list rebound to a string, joining a `None` into strings,
fixed-width integer conversion) are modelled with `Except`-style
exceptions named after the Python exception class they correspond to.
-/

namespace Fctl

/-- Output channels of the process (`sys.stdout` / `sys.stderr`). -/
inductive Channel where
  | stdout
  | stderr
deriving DecidableEq

/-- Observable side effects of a run: one network GET attempt on an
endpoint (with its 0-based attempt index), the one-time-unit retry sleep
(`time.sleep(1)`), a write of an error message to a channel
(`err_output_file.write(str(err))`), an invocation of the exposition
parser on the accumulated content
(`parser.text_string_to_metric_families(content)`),
`arg_parser.print_usage()`, and the driver's `print(report)`. -/
inductive Event where
  | attemptGet (endpoint : String) (idx : Nat)
  | sleep
  | errWrite (ch : Channel) (msg : String)
  | parseCall (content : Option String)
  | usagePrint (ch : Channel)
  | printReport (ch : Channel) (text : String)
deriving DecidableEq

/-- A Prometheus sample as produced by the external parser: a named tuple
with the sample name, its label mapping (a dict, modelled as an
insertion-ordered association list) and its numeric value (a Python
float, modelled as a rational). -/
structure Sample where
  name : String
  labels : List (String × String)
  value : ℚ
deriving DecidableEq

/-- A metric family: a name plus its samples, as produced by
`parser.text_string_to_metric_families`. -/
structure MetricFamily where
  name : String
  samples : List Sample
deriving DecidableEq

/-- Python `int()` applied to a float value: truncation toward zero. -/
def pyInt (q : ℚ) : Int :=
  if 0 ≤ q then ((q.num.toNat / q.den : Nat) : Int)
  else -(((-q.num).toNat / q.den : Nat) : Int)

/-- Helper for `pySplit`, walking the character list. -/
def splitAcc (sep : Char) : List Char → List Char → List String
  | [], acc => [String.mk acc.reverse]
  | c :: rest, acc =>
    if c = sep then String.mk acc.reverse :: splitAcc sep rest []
    else splitAcc sep rest (c :: acc)

/-- Python `str.split` with a one-character separator; in particular
`"".split(sep) == ['']`. -/
def pySplit (s : String) (sep : Char) : List String := splitAcc sep s.data []

/-- Python `str()` on a float sample value.  CPython renders integral
floats with a trailing `.0`; the model is exact for the integral values
exercised here. -/
def pyFloatStr (q : ℚ) : String :=
  if q.den = 1 then toString q.num ++ ".0" else toString q

/-- The lowercase hexadecimal digit for `d < 16`, as produced by
`format(octet, '02x')`. -/
def hexDigit (d : Nat) : Char :=
  if d < 10 then Char.ofNat (48 + d) else Char.ofNat (87 + d)

/-- `format(octet, '02x')` for one octet (`octet < 256`, as delivered by
`int.to_bytes`): two lowercase hexadecimal digits. -/
def format02x (b : Nat) : String :=
  String.mk [hexDigit (b / 16 % 16), hexDigit (b % 16)]

/-- `int(value).to_bytes(6, byteorder='big')`: the six big-endian bytes of
a value below `2 ^ 48`. -/
def toBytes6 (n : Nat) : List Nat :=
  [n / 2 ^ 40 % 256, n / 2 ^ 32 % 256, n / 2 ^ 24 % 256,
   n / 2 ^ 16 % 256, n / 2 ^ 8 % 256, n % 256]

/-- `decode_value(metric_name, value)` from `fctl.py`: for the
`learned_macs` metric, format the truncated integer value as six
colon-separated lowercase hexadecimal octets; `int.to_bytes` raises
`OverflowError` when the integer is negative or does not fit in six
bytes.  Every other metric keeps its value unchanged (the left summand of
the result); the Python function returns the float itself there, which
the report later stringifies. -/
def decode_value (metric_name : String) (value : ℚ) : Except String (ℚ ⊕ String) :=
  if metric_name == "learned_macs" then
    let n := pyInt value
    if 0 ≤ n ∧ n < 2 ^ 48 then
      .ok (.inr (String.intercalate ":" ((toBytes6 n.toNat).map format02x)))
    else .error "OverflowError"
  else .ok (.inl value)

/-- `label_matches is None or
set(label_matches.items()).issubset(set(labels.items()))` from
`_get_samples_from_metrics`. -/
def label_match (label_matches : Option (List (String × String)))
    (labels : List (String × String)) : Bool :=
  match label_matches with
  | none => true
  | some lm => lm.all (fun p => labels.contains p)

/-- `metric_name is None or metric.name == metric_name`. -/
def name_matches (metric_name : Option String) (m : MetricFamily) : Bool :=
  match metric_name with
  | none => true
  | some n => m.name == n

/-- The per-sample retention test of `_get_samples_from_metrics`: the
label-subset check, and (when `nonzero_only`) skipping samples whose
value truncates to integer zero. -/
def sample_passes (label_matches : Option (List (String × String)))
    (nonzero_only : Bool) (s : Sample) : Bool :=
  label_match label_matches s.labels && !(nonzero_only && pyInt s.value == 0)

/-- `_get_samples_from_metrics(metrics, metric_name, label_matches,
nonzero_only)`: nested loops collecting, in order, the samples of the
name-matching families that pass the retention test. -/
def _get_samples_from_metrics (metrics : List MetricFamily)
    (metric_name : Option String)
    (label_matches : Option (List (String × String)))
    (nonzero_only : Bool := false) : List Sample :=
  metrics.flatMap fun metric =>
    if name_matches metric_name metric then
      metric.samples.filter (sample_passes label_matches nonzero_only)
    else []

/-! ### The endpoint fetcher (`scrape_prometheus`) -/

/-- Result of one GET attempt on an endpoint, abstracting the network:
a 200 response whose body decodes strictly as UTF-8 (`ok`); an HTTP
response with a non-OK status code (`notOk`, only produced by the
`requests.get` branch for `http...` endpoints — `urllib.request.urlopen`
either succeeds or raises); or an exception of one of the caught classes
`requests.exceptions.ConnectionError` / `ValueError` (`exc`). -/
inductive FetchOutcome where
  | ok (content : String)
  | notOk
  | exc (msg : String)
deriving DecidableEq

/-- `endpoint.startswith('http')`. -/
def startsWithHttp (e : String) : Bool :=
  e.data.take 4 == [Char.ofNat 104, Char.ofNat 116, Char.ofNat 116, Char.ofNat 112]

/-- The `for _ in range(retries)` attempt loop of `scrape_prometheus` for
one endpoint: on `ok` set `content` and break (leaving `err` as it is);
on a non-OK status fall through to the next attempt without sleeping; on
a caught exception record it in `err`, sleep one time unit and retry.
Returns the final `content`, the final `err` and the emitted events. -/
def fetch_loop (e : String) (outcome : Nat → FetchOutcome) :
    Nat → Nat → Option String → Option String × Option String × List Event
  | 0, _, err => (none, err, [])
  | r + 1, idx, err =>
    match outcome idx with
    | .ok c => (some c, err, [.attemptGet e idx])
    | .notOk =>
      let res := fetch_loop e outcome r (idx + 1) err
      (res.1, res.2.1, .attemptGet e idx :: res.2.2)
    | .exc m =>
      let res := fetch_loop e outcome r (idx + 1) (some m)
      (res.1, res.2.1, .attemptGet e idx :: .sleep :: res.2.2)

/-- The body of `scrape_prometheus` for one endpoint: run the attempt
loop; if `err` ended up set, write it to the error file and return `None`
(`none`); otherwise feed `content` to the exposition parser, whose
`ValueError` is likewise written and turned into `None`. -/
def scrape_endpoint (fetchO : String → Nat → FetchOutcome)
    (parseO : Option String → Except String (List MetricFamily))
    (err_ch : Channel) (e : String) (retries : Nat) :
    Option (List MetricFamily) × List Event :=
  let res := fetch_loop e (fetchO e) retries 0 none
  match res.2.1 with
  | some m => (none, res.2.2 ++ [.errWrite err_ch m])
  | none =>
    match parseO res.1 with
    | .ok fams => (some fams, res.2.2 ++ [.parseCall res.1])
    | .error m => (none, res.2.2 ++ [.parseCall res.1, .errWrite err_ch m])

/-- `scrape_prometheus(endpoints, retries=3, err_output_file=sys.stdout)`:
process the endpoints in order, extending the aggregate `metrics` list,
and abort with `None` as soon as one endpoint fails. -/
def scrape_prometheus (fetchO : String → Nat → FetchOutcome)
    (parseO : Option String → Except String (List MetricFamily))
    (endpoints : List String) (retries : Nat := 3)
    (err_ch : Channel := .stdout) :
    Option (List MetricFamily) × List Event :=
  match endpoints with
  | [] => (some [], [])
  | e :: rest =>
    match scrape_endpoint fetchO parseO err_ch e retries with
    | (none, evs) => (none, evs)
    | (some fams, evs) =>
      match scrape_prometheus fetchO parseO rest retries err_ch with
      | (none, evs2) => (none, evs ++ evs2)
      | (some fams2, evs2) => (some (fams ++ fams2), evs ++ evs2)

/-! ### The report formatter (`report_label_match_metrics`) -/

/-- The dynamic type of the Python variable `report_output`: it starts as
a list of lines and is rebound to a string by the `'\n'.join` at the end
of each metric-name iteration. -/
inductive ReportVal where
  | list (lines : List String)
  | str (text : String)
deriving DecidableEq

/-- `'\n'.join(report_output)`: joining a list joins its lines; joining a
string (Python iterates a string by character) interleaves a newline
between its characters. -/
def pyJoinNL : ReportVal → String
  | .list xs => String.intercalate "\n" xs
  | .str s => String.intercalate "\n" (s.data.map (fun c => String.mk [c]))

/-- `report_output.append(line)`: appending to a list extends it; a
string has no `append` attribute, so Python raises `AttributeError`. -/
def reportAppend : ReportVal → String → Except String ReportVal
  | .list xs, line => .ok (.list (xs ++ [line]))
  | .str _, _ => .error "AttributeError"

/-- `not display_labels or key in display_labels`: a `None` or empty
display list is falsy, so every key is kept; otherwise keep the listed
keys. -/
def keep_label (display_labels : Option (List String)) (k : String) : Bool :=
  match display_labels with
  | none => true
  | some [] => true
  | some ds => ds.contains k

/-- Lexicographic comparison of label pairs, as Python tuple comparison
orders `sorted(labels.items())`. -/
def pairLe (p q : String × String) : Bool :=
  decide (p.1 < q.1 ∨ (p.1 = q.1 ∧ p.2 ≤ q.2))

/-- Insert one pair into an already sorted list of pairs. -/
def insertPair (p : String × String) :
    List (String × String) → List (String × String)
  | [] => [p]
  | q :: rest => if pairLe p q then p :: q :: rest else q :: insertPair p rest

/-- Python `sorted(labels.items())` (insertion sort by the lexicographic
pair order; ties cannot arise since dict keys are unique). -/
def pySorted (l : List (String × String)) : List (String × String) :=
  l.foldr insertPair []

/-- Python `str` of the `sorted_labels` list of string pairs, e.g.
`[('dp_id', '1')]`. -/
def pyReprPairs (l : List (String × String)) : String :=
  "[" ++ String.intercalate ", "
    (l.map (fun p => "(" ++ "'" ++ p.1 ++ "', '" ++ p.2 ++ "')")) ++ "]"

/-- `str(value)` after decoding: a float is stringified, the decoded MAC
string stays as it is. -/
def pyValStr : ℚ ⊕ String → String
  | .inl q => pyFloatStr q
  | .inr s => s

/-- The body of the inner `for sample in ...` loop of
`report_label_match_metrics`: build the display-filtered sorted label
list, decode the value (which can raise `OverflowError`), and join the
three fields with the delimiter — `delim.join` raises `TypeError` when
`metric_name` is `None`. -/
def sample_line (metric_name : Option String)
    (display_labels : Option (List String)) (delim : String) (s : Sample) :
    Except String String := do
  let sorted_labels :=
    (pySorted s.labels).filter (fun p => keep_label display_labels p.1)
  let v ← match metric_name with
    | some n => decode_value n s.value
    | none => .ok (.inl s.value)
  match metric_name with
  | some n =>
    .ok (String.intercalate delim [n, pyReprPairs sorted_labels, pyValStr v])
  | none => .error "TypeError"

/-- The `for metric_name in report_metrics` loop of
`report_label_match_metrics`, with the `'\n'.join` executed inside the
loop, rebinding `report_output` to a string after every metric name. -/
def report_loop (metrics : List MetricFamily)
    (display_labels : Option (List String)) (nonzero_only : Bool)
    (delim : String) (label_matches : Option (List (String × String))) :
    List (Option String) → ReportVal → Except String ReportVal
  | [], out => .ok out
  | mn :: rest, out => do
    let out2 ← (_get_samples_from_metrics metrics mn label_matches
        nonzero_only).foldlM
      (fun acc s => do
        let line ← sample_line mn display_labels delim s
        reportAppend acc line) out
    report_loop metrics display_labels nonzero_only delim label_matches rest
      (.str (pyJoinNL out2))

/-- `report_label_match_metrics(report_metrics, metrics, display_labels,
nonzero_only, delim, label_matches)`: a `None` metric list is replaced by
`[None]`, then the loop above runs starting from the empty list. -/
def report_label_match_metrics (report_metrics : Option (List String))
    (metrics : List MetricFamily)
    (display_labels : Option (List String) := none)
    (nonzero_only : Bool := false) (delim : String := "\t")
    (label_matches : Option (List (String × String)) := none) :
    Except String ReportVal :=
  let names : List (Option String) :=
    match report_metrics with
    | none => [none]
    | some ms => ms.map some
  report_loop metrics display_labels nonzero_only delim label_matches names
    (.list [])

/-! ### CLI parsing (`parse_args`) and the driver (`main`) -/

/-- The namespace returned by `argparse` for the five flags: `store_true`
for `-n`, an optional string for each of the others (absent flag =
`None`). -/
structure Args where
  nonzero : Bool := false
  endpoints : Option String := none
  metrics : Option String := none
  labels : Option String := none
  display_labels : Option String := none
deriving DecidableEq

/-- Python truthiness of an optional string: `None` and `''` are falsy. -/
def pyTruthy : Option String → Bool
  | none => false
  | some s => !(s == "")

/-- Python dict insertion `label_matches[label] = value`: overwrite in
place when the key exists, else append. -/
def dictInsert (d : List (String × String)) (k v : String) :
    List (String × String) :=
  if d.any (fun p => p.1 == k) then
    d.map (fun p => if p.1 == k then (k, v) else p)
  else d ++ [(k, v)]

/-- The `for label_value in args.labels.split(',')` loop: each item is
unpacked by `label, value = label_value.split(':')`, which raises
`ValueError` unless the split yields exactly two parts. -/
def build_label_matches :
    List String → List (String × String) → Except String (List (String × String))
  | [], acc => .ok acc
  | lv :: rest, acc =>
    match pySplit lv ':' with
    | [label, value] => build_label_matches rest (dictInsert acc label value)
    | _ => .error "ValueError"

/-- The query specification assembled by `parse_args`. -/
structure QuerySpec where
  endpoints : List String
  report_metrics : List String
  label_matches : Option (List (String × String))
  nonzero_only : Bool
  display_labels : Option (List String)
deriving DecidableEq

/-- The `try` body of `parse_args`: starting from the defaults
(`endpoints = []`, `report_metrics = []`, `label_matches = None`,
`display_labels = None`, `nonzero_only = False`), fill in each field from
the truthy flags; only the label loop can raise. -/
def parse_args_body (args : Args) : Except String QuerySpec := do
  let nonzero_only := args.nonzero
  let endpoints :=
    if pyTruthy args.endpoints then pySplit (args.endpoints.getD "") ',' else []
  let report_metrics :=
    if pyTruthy args.metrics then pySplit (args.metrics.getD "") ',' else []
  let label_matches ←
    if pyTruthy args.labels then do
      let lm ← build_label_matches (pySplit (args.labels.getD "") ',') []
      pure (some lm)
    else pure none
  let display_labels :=
    if pyTruthy args.display_labels then
      some (pySplit (args.display_labels.getD "") ',')
    else none
  .ok ⟨endpoints, report_metrics, label_matches, nonzero_only, display_labels⟩

/-- Result of `parse_args` as observed by the process: a parsed spec; the
`except (KeyError, IndexError)` handler that prints the usage text (to
`sys.stdout`, the default file of `print_usage`) and calls
`sys.exit(-1)`; or an exception of any other class escaping uncaught. -/
inductive ParseResult where
  | ok (spec : QuerySpec)
  | usageExit
  | uncaught (exc : String)
deriving DecidableEq

/-- `parse_args(sys_args)`: run the body and dispatch on the exception
class — only `KeyError` and `IndexError` reach the usage handler. -/
def parse_args (args : Args) : ParseResult :=
  match parse_args_body args with
  | .ok spec => .ok spec
  | .error exc =>
    if exc == "KeyError" || exc == "IndexError" then .usageExit
    else .uncaught exc

/-- Final outcome of a `main` run: a normal return, `sys.exit(code)`, or
an uncaught exception killing the process. -/
inductive MainOutcome where
  | done
  | exit (code : Int)
  | crash (exc : String)
deriving DecidableEq

/-- `print(report)`: Python `str` of the final `report_output` value — a
list is rendered Python-style (so the empty list prints as `[]`), a
string prints as itself. -/
def pyStrReport : ReportVal → String
  | .list xs =>
    "[" ++ String.intercalate ", " (xs.map (fun s => "'" ++ s ++ "'")) ++ "]"
  | .str s => s

/-- `main()`: parse the CLI, scrape with the default retry count and the
default error file (`sys.stdout`), exit 1 when the scrape returns `None`,
else format the report and print it to standard output. -/
def main (fetchO : String → Nat → FetchOutcome)
    (parseO : Option String → Except String (List MetricFamily))
    (args : Args) : MainOutcome × List Event :=
  match parse_args args with
  | .uncaught exc => (.crash exc, [])
  | .usageExit => (.exit (-1), [.usagePrint .stdout])
  | .ok spec =>
    match scrape_prometheus fetchO parseO spec.endpoints 3 .stdout with
    | (none, evs) => (.exit 1, evs)
    | (some metrics, evs) =>
      match report_label_match_metrics (some spec.report_metrics) metrics
          spec.display_labels spec.nonzero_only "\t" spec.label_matches with
      | .error exc => (.crash exc, evs)
      | .ok rep => (.done, evs ++ [.printReport .stdout (pyStrReport rep)])

/-! ### Claim theorems -/

/-- C1.  The claim says a successful attempt stops retrying, accumulates
the text and never aborts the endpoint, even after earlier transport
failures.  The code never clears `err` after a success, so an endpoint
whose first attempt raises a connection error and whose second attempt
succeeds still aborts: the stale error is written, `None` is returned and
the parser is never invoked on the retrieved text. -/
theorem scrape_discards_successful_retry :
    scrape_prometheus
      (fun _ i => if i == 0 then .exc "connection error" else .ok "dp_status 1.0")
      (fun _ => .ok []) ["http://a"] 3 .stdout
      = (none,
         [.attemptGet "http://a" 0, .sleep, .attemptGet "http://a" 1,
          .errWrite .stdout "connection error"]) := by
  rfl

/-- C2.  The claim says the lines of all requested metric names are
joined into one newline-separated block.  The `'\n'.join` sits inside the
metric-name loop, rebinding `report_output` to a string, so a second
requested metric name with a retained sample hits `str.append` and the
formatter dies with `AttributeError`; a second name without samples
instead newline-joins the characters of the first block. -/
theorem report_two_metric_names_breaks :
    report_label_match_metrics (some ["a", "b"])
        [⟨"a", [⟨"a", [], 1⟩]⟩, ⟨"b", [⟨"b", [], 1⟩]⟩] none false "\t" none
      = .error "AttributeError"
    ∧ report_label_match_metrics (some ["a", "b"]) [⟨"a", [⟨"a", [], 1⟩]⟩]
        none false "\t" none
      = .ok (.str "a\n\t\n[\n]\n\t\n1\n.\n0")
    ∧ report_label_match_metrics (some ["a"]) [⟨"a", [⟨"a", [], 1⟩]⟩]
        none false "\t" none
      = .ok (.str "a\t[]\t1.0") := by
  exact ⟨rfl, rfl, rfl⟩

/-- C3.  The claim says an absent `-m` flag reports all metric families.
`parse_args` initialises `report_metrics` to the empty list (not `None`),
so the formatter's `None`-to-`[None]` all-metrics path is never taken:
the metric-name loop runs zero times and the still-empty list is
returned, which the driver prints as `[]` — even though (second
conjunct) the scraped data holds a sample passing every filter. -/
theorem main_without_metrics_flag_prints_empty_list :
    main (fun _ _ => .ok "t")
        (fun _ => .ok [⟨"dp_status", [⟨"dp_status", [("dp_id", "1")], 1⟩]⟩])
        { nonzero := false, endpoints := some "http://a", metrics := none,
          labels := none, display_labels := none }
      = (.done,
         [.attemptGet "http://a" 0, .parseCall (some "t"),
          .printReport .stdout "[]"])
    ∧ _get_samples_from_metrics
        [⟨"dp_status", [⟨"dp_status", [("dp_id", "1")], 1⟩]⟩] none none false
      = [⟨"dp_status", [("dp_id", "1")], 1⟩] := by
  exact ⟨rfl, rfl⟩

/-- C4.  The claim says malformed label syntax makes argument parsing
print the usage text to standard error and exit non-zero.  The unpacking
`label, value = label_value.split(':')` raises `ValueError`, but the
handler catches only `KeyError` and `IndexError`, so the exception
escapes uncaught: no usage text is printed, no pipeline step runs, and
the process dies with a traceback instead of the usage message. -/
theorem parse_args_bad_label_escapes_uncaught :
    parse_args
        { nonzero := false, endpoints := some "http://a",
          metrics := none, labels := some "dpid", display_labels := none }
      = .uncaught "ValueError"
    ∧ main (fun _ _ => .ok "t") (fun _ => .ok [])
        { nonzero := false, endpoints := some "http://a", metrics := none,
          labels := some "dpid", display_labels := none }
      = (.crash "ValueError", []) := by
  exact ⟨rfl, rfl⟩

/-- C9 counterexample.  The claim says error diagnostics go to a stream
distinct from the standard output that carries the report.  In a run of
`main` where every fetch attempt fails, the scrape's error write goes to
`sys.stdout` — the very stream the report is printed on — because
`err_output_file` defaults to `sys.stdout` and `main` uses the default. -/
theorem error_diagnostics_on_stdout_cex :
    main (fun _ _ => .exc "boom") (fun _ => .ok [])
        { nonzero := false, endpoints := some "http://a", metrics := none,
          labels := none, display_labels := none }
      = (.exit 1,
         [.attemptGet "http://a" 0, .sleep, .attemptGet "http://a" 1, .sleep,
          .attemptGet "http://a" 2, .sleep, .errWrite .stdout "boom"])
    ∧ Event.errWrite Channel.stdout "boom"
        ∈ (main (fun _ _ => .exc "boom") (fun _ => .ok [])
            { nonzero := false, endpoints := some "http://a", metrics := none,
              labels := none, display_labels := none }).2 := by
  refine ⟨rfl, ?_⟩
  decide

/-- With the nonzero flag off, retention is exactly the label check. -/
theorem sample_passes_false (lm : Option (List (String × String))) (s : Sample) :
    sample_passes lm false s = label_match lm s.labels := by
  simp [sample_passes]

/-- Retention with the nonzero flag on splits into retention with it off
plus the truncated-value test. -/
theorem sample_passes_split (lm : Option (List (String × String))) (s : Sample) :
    sample_passes lm true s
      = (sample_passes lm false s && !(pyInt s.value == 0)) := by
  simp only [sample_passes]
  cases label_match lm s.labels <;> cases h : (pyInt s.value == 0) <;> simp

/-- The boolean label check agrees with pairwise membership. -/
theorem label_match_iff_mem (L : List (String × String))
    (labels : List (String × String)) :
    label_match (some L) labels = true ↔ ∀ p ∈ L, p ∈ labels := by
  simp [label_match, List.all_eq_true, List.elem_iff]

/-- C5.  The filter retains a sample under a required-label mapping `L`
exactly when every `(key, value)` pair of `L` occurs among the sample's
label pairs (a subset relation, not equality); an absent or empty `L`
retains every sample; and a mapping with more pairs than the sample's
label dict (both being dicts, their key lists are duplicate-free) retains
none. -/
theorem label_subset_filter_iff (L : List (String × String)) (s : Sample) :
    (sample_passes (some L) false s = true ↔ ∀ p ∈ L, p ∈ s.labels)
    ∧ sample_passes none false s = true
    ∧ sample_passes (some []) false s = true
    ∧ ((L.map Prod.fst).Nodup → (s.labels.map Prod.fst).Nodup →
        s.labels.length < L.length → sample_passes (some L) false s = false) := by
  refine ⟨?_, ?_, ?_, ?_⟩
  · rw [sample_passes_false]
    exact label_match_iff_mem L s.labels
  · simp [sample_passes_false, label_match]
  · simp [sample_passes_false, label_match]
  · intro h1 _h2 h3
    rw [sample_passes_false, Bool.eq_false_iff]
    intro hT
    have hsub : ∀ p ∈ L, p ∈ s.labels := (label_match_iff_mem L s.labels).mp hT
    have hLnd : L.Nodup := h1.of_map
    have hcard : L.toFinset.card ≤ s.labels.toFinset.card :=
      Finset.card_le_card (fun p hp => by
        simp only [List.mem_toFinset] at hp ⊢
        exact hsub p hp)
    have e1 : L.toFinset.card = L.length := List.toFinset_card_of_nodup hLnd
    have e2 : s.labels.toFinset.card ≤ s.labels.length :=
      s.labels.toFinset_card_le
    omega

/-- Witness for C5: a two-pair requirement against a one-label sample is
rejected. -/
theorem label_subset_filter_iff_witness :
    sample_passes (some [("a", "1"), ("b", "2")]) false ⟨"m", [("c", "3")], 1⟩
      = false :=
  (label_subset_filter_iff [("a", "1"), ("b", "2")] ⟨"m", [("c", "3")], 1⟩).2.2.2
    (by decide) (by decide) (by decide)

/-- C7.  With the nonzero flag set, the collected samples are exactly the
unflagged result with the samples whose value truncates to integer zero
filtered away — so a sample is excluded by the flag iff `int(value) == 0`
— while with the flag off retention is the label check alone, no sample
being excluded on account of its value; truncation sends both `0` and
`0.5` to integer `0`. -/
theorem nonzero_filter_truncates (metrics : List MetricFamily)
    (mn : Option String) (lm : Option (List (String × String))) :
    _get_samples_from_metrics metrics mn lm true
      = (_get_samples_from_metrics metrics mn lm false).filter
          (fun s => !(pyInt s.value == 0))
    ∧ (∀ s : Sample, sample_passes lm false s = label_match lm s.labels)
    ∧ pyInt (0 : ℚ) = 0 ∧ pyInt (1 / 2 : ℚ) = 0 := by
  have htrunc : pyInt (1 / 2 : ℚ) = 0 := by
    have hn : (1 / 2 : ℚ).num = 1 := by norm_num
    have hd : (1 / 2 : ℚ).den = 2 := by norm_num
    rw [pyInt, if_pos (by norm_num), hn, hd]
    rfl
  refine ⟨?_, fun s => sample_passes_false lm s, by decide, htrunc⟩
  induction metrics with
  | nil => rfl
  | cons m rest ih =>
    simp only [_get_samples_from_metrics, List.flatMap_cons,
      List.filter_append] at *
    rw [ih]
    by_cases h : name_matches mn m
    · simp only [if_pos h, List.filter_filter]
      congr 1
      apply List.filter_congr
      intro s _
      rw [sample_passes_split, Bool.and_comm]
    · simp [if_neg h]

/-- The numeric value of one lowercase hexadecimal digit character
(specification-side inverse of `hexDigit`). -/
def hexVal (c : Char) : Option Nat :=
  let n := c.toNat
  if 48 ≤ n ∧ n ≤ 57 then some (n - 48)
  else if 97 ≤ n ∧ n ≤ 102 then some (n - 87)
  else none

/-- The value of a two-hex-digit octet string (specification-side inverse
of `format02x`). -/
def octetVal (s : String) : Option Nat :=
  match s.data with
  | [c1, c2] =>
    match hexVal c1, hexVal c2 with
    | some h1, some h2 => some (h1 * 16 + h2)
    | _, _ => none
  | _ => none

/-- Truncation of a cast natural number is the number itself. -/
theorem pyInt_natCast (n : Nat) : pyInt (n : ℚ) = n := by
  rw [pyInt, if_pos (by positivity)]
  simp [Rat.num_natCast, Rat.den_natCast]

/-- `hexDigit` produces exactly the lowercase digit of its input. -/
theorem hexVal_hexDigit : ∀ d : Nat, d < 16 → hexVal (hexDigit d) = some d := by
  decide

/-- Reading back a formatted octet recovers the byte. -/
theorem octetVal_format02x (b : Nat) (hb : b < 256) :
    octetVal (format02x b) = some b := by
  have h1 : b / 16 % 16 < 16 := Nat.mod_lt _ (by norm_num)
  have h2 : b % 16 < 16 := Nat.mod_lt _ (by norm_num)
  simp only [format02x, octetVal, hexVal_hexDigit _ h1, hexVal_hexDigit _ h2]
  have e : b / 16 % 16 = b / 16 := Nat.mod_eq_of_lt (by omega)
  rw [e]
  simp only [Option.some.injEq]
  omega

/-- Reading the six formatted octets back big-endian recovers the value. -/
theorem foldl_octets (n : Nat) (hn : n < 2 ^ 48) :
    ((toBytes6 n).map format02x).foldl
        (fun acc p => acc * 256 + (octetVal p).getD 0) 0 = n := by
  have h40 : n / 2 ^ 40 % 256 < 256 := Nat.mod_lt _ (by norm_num)
  have h32 : n / 2 ^ 32 % 256 < 256 := Nat.mod_lt _ (by norm_num)
  have h24 : n / 2 ^ 24 % 256 < 256 := Nat.mod_lt _ (by norm_num)
  have h16 : n / 2 ^ 16 % 256 < 256 := Nat.mod_lt _ (by norm_num)
  have h8 : n / 2 ^ 8 % 256 < 256 := Nat.mod_lt _ (by norm_num)
  have h0 : n % 256 < 256 := Nat.mod_lt _ (by norm_num)
  simp only [toBytes6, List.map_cons, List.map_nil, List.foldl_cons,
    List.foldl_nil, octetVal_format02x _ h40, octetVal_format02x _ h32,
    octetVal_format02x _ h24, octetVal_format02x _ h16,
    octetVal_format02x _ h8, octetVal_format02x _ h0, Option.getD_some]
  have e40 : (2 : ℕ) ^ 40 = 1099511627776 := by norm_num
  have e32 : (2 : ℕ) ^ 32 = 4294967296 := by norm_num
  have e24 : (2 : ℕ) ^ 24 = 16777216 := by norm_num
  have e16 : (2 : ℕ) ^ 16 = 65536 := by norm_num
  have e8 : (2 : ℕ) ^ 8 = 256 := by norm_num
  have e48 : (2 : ℕ) ^ 48 = 281474976710656 := by norm_num
  rw [e40, e32, e24, e16, e8]
  rw [e48] at hn
  omega

/-- C6.  For any value below `2 ^ 48` the learned-MAC decoder yields six
two-character lowercase-hexadecimal octet strings joined by colons whose
big-endian reading reproduces the value; the concrete value
`0xB827EB608918` decodes to `"b8:27:eb:60:89:18"`; every other metric
name leaves the value unchanged. -/
theorem decode_learned_macs_hex :
    (∀ n : Nat, n < 2 ^ 48 →
      ∃ parts : List String,
        decode_value "learned_macs" (n : ℚ)
            = .ok (.inr (String.intercalate ":" parts))
        ∧ parts.length = 6
        ∧ (∀ p ∈ parts, p.length = 2 ∧ ∀ c ∈ p.data, (hexVal c).isSome = true)
        ∧ parts.foldl (fun acc p => acc * 256 + (octetVal p).getD 0) 0 = n)
    ∧ decode_value "learned_macs" ((0xB827EB608918 : Nat) : ℚ)
        = .ok (.inr "b8:27:eb:60:89:18")
    ∧ (∀ name : String, name ≠ "learned_macs" →
        ∀ v : ℚ, decode_value name v = .ok (.inl v)) := by
  refine ⟨?_, by rfl, ?_⟩
  · intro n hn
    refine ⟨(toBytes6 n).map format02x, ?_, by simp [toBytes6], ?_,
      foldl_octets n hn⟩
    · rw [decode_value]
      simp only [beq_self_eq_true, if_true, pyInt_natCast n]
      rw [if_pos ⟨Int.ofNat_nonneg n, by exact_mod_cast hn⟩]
      simp [Int.toNat_natCast]
    · intro p hp
      obtain ⟨b, hb, rfl⟩ := List.mem_map.mp hp
      refine ⟨rfl, ?_⟩
      intro c hc
      have h1 : b / 16 % 16 < 16 := Nat.mod_lt _ (by norm_num)
      have h2 : b % 16 < 16 := Nat.mod_lt _ (by norm_num)
      simp only [format02x, List.mem_cons, List.not_mem_nil, or_false] at hc
      rcases hc with rfl | rfl
      · rw [hexVal_hexDigit _ h1]; rfl
      · rw [hexVal_hexDigit _ h2]; rfl
  · intro name h v
    simp [decode_value, h]

/-- Witness for C6: the general statement applied at the value `5` and at
the unrelated metric name `dp_status`. -/
theorem decode_learned_macs_hex_witness :
    (∃ parts : List String,
      decode_value "learned_macs" ((5 : Nat) : ℚ)
          = .ok (.inr (String.intercalate ":" parts))
      ∧ parts.length = 6
      ∧ (∀ p ∈ parts, p.length = 2 ∧ ∀ c ∈ p.data, (hexVal c).isSome = true)
      ∧ parts.foldl (fun acc p => acc * 256 + (octetVal p).getD 0) 0 = 5)
    ∧ decode_value "dp_status" (1 : ℚ) = .ok (.inl 1) :=
  ⟨decode_learned_macs_hex.1 5 (by norm_num),
   decode_learned_macs_hex.2.2 "dp_status" (by decide) 1⟩

/-- Exhausted attempts on one endpoint, every attempt raising: the loop
makes the attempts in order, sleeping after each, and leaves `content`
empty with the last error recorded. -/
theorem fetch_loop_all_exc (e : String) (outcome : Nat → FetchOutcome)
    (msg : Nat → String) :
    ∀ r idx err, (∀ i, idx ≤ i → i < idx + (r + 1) → outcome i = .exc (msg i)) →
      fetch_loop e outcome (r + 1) idx err
        = (none, some (msg (idx + r)),
           (List.range' idx (r + 1)).flatMap (fun i => [.attemptGet e i, .sleep])) := by
  intro r
  induction r with
  | zero =>
    intro idx err h
    rw [fetch_loop, h idx (Nat.le_refl idx) (by omega)]
    simp [fetch_loop, List.range']
  | succ r ih =>
    intro idx err h
    rw [fetch_loop, h idx (Nat.le_refl idx) (by omega)]
    dsimp only
    rw [ih (idx + 1) (some (msg idx)) (fun i h1 h2 => h i (by omega) (by omega))]
    have : idx + 1 + r = idx + (r + 1) := by omega
    rw [this]
    simp [List.range']

/-- Every attempt returning a non-OK status: the loop just burns through
the attempts without sleeping or touching `content` or `err`. -/
theorem fetch_loop_all_notOk (e : String) (outcome : Nat → FetchOutcome) :
    ∀ r idx err, (∀ i, idx ≤ i → i < idx + r → outcome i = .notOk) →
      fetch_loop e outcome r idx err
        = (none, err, (List.range' idx r).map (Event.attemptGet e)) := by
  intro r
  induction r with
  | zero => intro idx err _; rfl
  | succ r ih =>
    intro idx err h
    rw [fetch_loop, h idx (Nat.le_refl idx) (by omega)]
    dsimp only
    rw [ih (idx + 1) err (fun i h1 h2 => h i (by omega) (by omega))]
    simp [List.range']

/-- C8.  For an endpoint whose every attempt raises a transport error,
exactly `R` GET attempts happen (indices `0` to `R - 1`, never an
`(R+1)`-th), each followed by the retry sleep; the whole scrape then
aborts with the no-data result `none` after writing the last observed
error to the error channel — the right-hand side does not depend on the
remaining endpoints, which are therefore never attempted. -/
theorem scrape_aborts_after_retry_exhaustion
    (fetchO : String → Nat → FetchOutcome)
    (parseO : Option String → Except String (List MetricFamily))
    (err_ch : Channel) (e : String) (rest : List String) (R : Nat)
    (msg : Nat → String) (hR : 0 < R)
    (hfail : ∀ i, i < R → fetchO e i = .exc (msg i)) :
    scrape_prometheus fetchO parseO (e :: rest) R err_ch
      = (none, (List.range R).flatMap (fun i => [.attemptGet e i, .sleep])
          ++ [.errWrite err_ch (msg (R - 1))]) := by
  obtain ⟨r, rfl⟩ : ∃ r, R = r + 1 := ⟨R - 1, by omega⟩
  have hfl := fetch_loop_all_exc e (fetchO e) msg r 0 none
    (fun i _ h2 => hfail i (by omega))
  simp only [Nat.zero_add] at hfl
  simp only [scrape_prometheus, scrape_endpoint, hfl, List.range_eq_range']
  norm_num

/-- C10.  For an HTTP endpoint whose every attempt yields a response with
a non-OK status code (no exception raised): no attempt counts as a
transport failure — the attempt loop ends with `content` and `err` both
empty, its trace holding exactly the `R` GET attempts and no sleep — and
the endpoint is then handed to the exposition parser with the absent
(`none`) content; the endpoint's result is whatever the parser produces,
not a transport-error abort, and no sleep occurs anywhere. -/
theorem scrape_non_ok_status_parses_none
    (fetchO : String → Nat → FetchOutcome)
    (parseO : Option String → Except String (List MetricFamily))
    (err_ch : Channel) (e : String) (R : Nat)
    (hhttp : startsWithHttp e = true)
    (hnotok : ∀ i, i < R → fetchO e i = .notOk) :
    fetch_loop e (fetchO e) R 0 none
      = (none, none, (List.range R).map (Event.attemptGet e))
    ∧ scrape_endpoint fetchO parseO err_ch e R
      = (match parseO none with
         | .ok fams =>
           (some fams,
            (List.range R).map (Event.attemptGet e) ++ [.parseCall none])
         | .error m =>
           (none, (List.range R).map (Event.attemptGet e)
             ++ [.parseCall none, .errWrite err_ch m]))
    ∧ Event.sleep ∉ (scrape_endpoint fetchO parseO err_ch e R).2 := by
  have hfl := fetch_loop_all_notOk e (fetchO e) R 0 none
    (fun i _ h2 => hnotok i (by omega))
  simp only [Nat.zero_add] at hfl
  rw [List.range_eq_range']
  refine ⟨hfl, ?_, ?_⟩
  · simp only [scrape_endpoint, hfl]
  · simp only [scrape_endpoint, hfl]
    cases hp : parseO none <;> simp

/-- The attempt loop emits only GET-attempt and sleep events. -/
theorem fetch_loop_events (e : String) (o : Nat → FetchOutcome) :
    ∀ r idx err ev, ev ∈ (fetch_loop e o r idx err).2.2 →
      (∃ i, ev = Event.attemptGet e i) ∨ ev = Event.sleep := by
  intro r
  induction r with
  | zero => intro idx err ev h; simp [fetch_loop] at h
  | succ r ih =>
    intro idx err ev h
    rw [fetch_loop] at h
    cases ho : o idx <;> rw [ho] at h <;> dsimp only at h
    · simp at h
      exact .inl ⟨idx, h⟩
    · rcases List.mem_cons.mp h with rfl | h2
      · exact .inl ⟨idx, rfl⟩
      · exact ih (idx + 1) err ev h2
    · rcases List.mem_cons.mp h with rfl | h2
      · exact .inl ⟨idx, rfl⟩
      · rcases List.mem_cons.mp h2 with rfl | h3
        · exact .inr rfl
        · exact ih (idx + 1) _ ev h3

/-- Every error write of one endpoint's processing goes to the channel
passed as `err_output_file`. -/
theorem scrape_endpoint_errWrite_channel
    (fetchO : String → Nat → FetchOutcome)
    (parseO : Option String → Except String (List MetricFamily))
    (err_ch : Channel) (e : String) (R : Nat) (ch : Channel) (m : String)
    (h : Event.errWrite ch m ∈ (scrape_endpoint fetchO parseO err_ch e R).2) :
    ch = err_ch := by
  rw [scrape_endpoint] at h
  cases herr : (fetch_loop e (fetchO e) R 0 none).2.1 with
  | some m2 =>
    rw [herr] at h
    dsimp only at h
    rcases List.mem_append.mp h with h1 | h2
    · rcases fetch_loop_events e (fetchO e) R 0 none _ h1 with ⟨i, hi⟩ | hs <;>
        simp_all
    · simp at h2
      exact h2.1.symm ▸ rfl
  | none =>
    rw [herr] at h
    dsimp only at h
    cases hp : parseO (fetch_loop e (fetchO e) R 0 none).1 <;> rw [hp] at h <;>
        dsimp only at h
    all_goals
      rcases List.mem_append.mp h with h1 | h2
    · rcases fetch_loop_events e (fetchO e) R 0 none _ h1 with ⟨i, hi⟩ | hs <;>
        simp_all
    · simp at h2
      obtain ⟨rfl, rfl⟩ := h2
      rfl
    · rcases fetch_loop_events e (fetchO e) R 0 none _ h1 with ⟨i, hi⟩ | hs <;>
        simp_all
    · simp at h2

/-- One endpoint's processing never prints a report. -/
theorem scrape_endpoint_no_printReport
    (fetchO : String → Nat → FetchOutcome)
    (parseO : Option String → Except String (List MetricFamily))
    (err_ch : Channel) (e : String) (R : Nat) (ch : Channel) (s : String) :
    Event.printReport ch s ∉ (scrape_endpoint fetchO parseO err_ch e R).2 := by
  intro h
  rw [scrape_endpoint] at h
  cases herr : (fetch_loop e (fetchO e) R 0 none).2.1 with
  | some m2 =>
    rw [herr] at h
    dsimp only at h
    rcases List.mem_append.mp h with h1 | h2
    · rcases fetch_loop_events e (fetchO e) R 0 none _ h1 with ⟨i, hi⟩ | hs <;>
        simp_all
    · simp at h2
  | none =>
    rw [herr] at h
    dsimp only at h
    cases hp : parseO (fetch_loop e (fetchO e) R 0 none).1 <;> rw [hp] at h <;>
        dsimp only at h
    all_goals
      rcases List.mem_append.mp h with h1 | h2
    · rcases fetch_loop_events e (fetchO e) R 0 none _ h1 with ⟨i, hi⟩ | hs <;>
        simp_all
    · simp at h2
    · rcases fetch_loop_events e (fetchO e) R 0 none _ h1 with ⟨i, hi⟩ | hs <;>
        simp_all
    · simp at h2

/-- Every error write of a whole scrape goes to the channel passed as
`err_output_file`. -/
theorem scrape_errWrite_channel
    (fetchO : String → Nat → FetchOutcome)
    (parseO : Option String → Except String (List MetricFamily)) :
    ∀ (endpoints : List String) (R : Nat) (err_ch : Channel)
      (ch : Channel) (m : String),
      Event.errWrite ch m ∈ (scrape_prometheus fetchO parseO endpoints R err_ch).2 →
      ch = err_ch := by
  intro endpoints
  induction endpoints with
  | nil => intro R err_ch ch m h; simp [scrape_prometheus] at h
  | cons e rest ih =>
    intro R err_ch ch m h
    rw [scrape_prometheus] at h
    cases hse : scrape_endpoint fetchO parseO err_ch e R with
    | mk fst evs =>
      rw [hse] at h
      cases fst with
      | none =>
        dsimp only at h
        exact scrape_endpoint_errWrite_channel fetchO parseO err_ch e R ch m
          (hse ▸ h)
      | some fams =>
        dsimp only at h
        cases hrest : scrape_prometheus fetchO parseO rest R err_ch with
        | mk fst2 evs2 =>
          rw [hrest] at h
          cases fst2 <;> dsimp only at h <;>
            rcases List.mem_append.mp h with h1 | h2
          · exact scrape_endpoint_errWrite_channel fetchO parseO err_ch e R ch m
              (hse ▸ h1)
          · exact ih R err_ch ch m (hrest ▸ h2)
          · exact scrape_endpoint_errWrite_channel fetchO parseO err_ch e R ch m
              (hse ▸ h1)
          · exact ih R err_ch ch m (hrest ▸ h2)

/-- A scrape never prints a report. -/
theorem scrape_no_printReport
    (fetchO : String → Nat → FetchOutcome)
    (parseO : Option String → Except String (List MetricFamily)) :
    ∀ (endpoints : List String) (R : Nat) (err_ch : Channel)
      (ch : Channel) (s : String),
      Event.printReport ch s ∉ (scrape_prometheus fetchO parseO endpoints R err_ch).2 := by
  intro endpoints
  induction endpoints with
  | nil => intro R err_ch ch s h; simp [scrape_prometheus] at h
  | cons e rest ih =>
    intro R err_ch ch s h
    rw [scrape_prometheus] at h
    cases hse : scrape_endpoint fetchO parseO err_ch e R with
    | mk fst evs =>
      rw [hse] at h
      cases fst with
      | none =>
        dsimp only at h
        exact scrape_endpoint_no_printReport fetchO parseO err_ch e R ch s
          (hse ▸ h)
      | some fams =>
        dsimp only at h
        cases hrest : scrape_prometheus fetchO parseO rest R err_ch with
        | mk fst2 evs2 =>
          rw [hrest] at h
          cases fst2 <;> dsimp only at h <;>
            rcases List.mem_append.mp h with h1 | h2
          · exact scrape_endpoint_no_printReport fetchO parseO err_ch e R ch s
              (hse ▸ h1)
          · exact ih R err_ch ch s (hrest ▸ h2)
          · exact scrape_endpoint_no_printReport fetchO parseO err_ch e R ch s
              (hse ▸ h1)
          · exact ih R err_ch ch s (hrest ▸ h2)

/-- C9 amended.  In every `main` run, fetch and parse error diagnostics
are written to the stream given by `err_output_file`, which `main` leaves
at its default `sys.stdout` — so every error write and the report print
both land on standard output, the same stream. -/
theorem error_and_report_share_stdout
    (fetchO : String → Nat → FetchOutcome)
    (parseO : Option String → Except String (List MetricFamily)) (args : Args) :
    (∀ ch m, Event.errWrite ch m ∈ (main fetchO parseO args).2 →
      ch = Channel.stdout)
    ∧ (∀ ch s, Event.printReport ch s ∈ (main fetchO parseO args).2 →
      ch = Channel.stdout) := by
  constructor
  · intro ch m h
    rw [main] at h
    split at h
    · simp at h
    · simp at h
    · next spec hpa =>
      split at h
      · next evs hs =>
        refine scrape_errWrite_channel fetchO parseO spec.endpoints 3
          Channel.stdout ch m ?_
        rw [hs]
        exact h
      · next metrics evs hs =>
        split at h
        · next exc hrep =>
          refine scrape_errWrite_channel fetchO parseO spec.endpoints 3
            Channel.stdout ch m ?_
          rw [hs]
          exact h
        · next rep hrep =>
          dsimp only at h
          rcases List.mem_append.mp h with h1 | h2
          · refine scrape_errWrite_channel fetchO parseO spec.endpoints 3
              Channel.stdout ch m ?_
            rw [hs]
            exact h1
          · simp at h2
  · intro ch s h
    rw [main] at h
    split at h
    · simp at h
    · simp at h
    · next spec hpa =>
      split at h
      · next evs hs =>
        exfalso
        refine scrape_no_printReport fetchO parseO spec.endpoints 3
          Channel.stdout ch s ?_
        rw [hs]
        exact h
      · next metrics evs hs =>
        split at h
        · next exc hrep =>
          exfalso
          refine scrape_no_printReport fetchO parseO spec.endpoints 3
            Channel.stdout ch s ?_
          rw [hs]
          exact h
        · next rep hrep =>
          dsimp only at h
          rcases List.mem_append.mp h with h1 | h2
          · exfalso
            refine scrape_no_printReport fetchO parseO spec.endpoints 3
              Channel.stdout ch s ?_
            rw [hs]
            exact h1
          · simp at h2
            exact h2.1

/-- Witness for C8: three failing attempts on the first of two endpoints;
the trace shows the three attempts with their sleeps, the error write and
nothing for the second endpoint. -/
theorem scrape_aborts_after_retry_exhaustion_witness :
    scrape_prometheus (fun _ _ => .exc "boom") (fun _ => .ok [])
        ["http://a", "http://b"] 3 .stdout
      = (none,
         [.attemptGet "http://a" 0, .sleep, .attemptGet "http://a" 1, .sleep,
          .attemptGet "http://a" 2, .sleep, .errWrite .stdout "boom"]) :=
  scrape_aborts_after_retry_exhaustion (fun _ _ => .exc "boom")
    (fun _ => .ok []) .stdout "http://a" ["http://b"] 3 (fun _ => "boom")
    (by decide) (fun _ _ => rfl)

/-- Witness for C10: three non-OK responses on an HTTP endpoint; the
parser is then invoked on the absent content and its (empty) families are
returned, with no sleep and no error write. -/
theorem scrape_non_ok_status_parses_none_witness :
    scrape_endpoint (fun _ _ => .notOk) (fun _ => .ok []) .stdout "http://a" 3
      = (some [],
         [.attemptGet "http://a" 0, .attemptGet "http://a" 1,
          .attemptGet "http://a" 2, .parseCall none])
    ∧ Event.sleep ∉ (scrape_endpoint (fun _ _ => .notOk) (fun _ => .ok [])
        .stdout "http://a" 3).2 := by
  have h := scrape_non_ok_status_parses_none (fun _ _ => .notOk)
    (fun _ => .ok []) .stdout "http://a" 3 (by decide) (fun _ _ => rfl)
  exact ⟨h.2.1, h.2.2⟩

/-- Witness for C9: the channel facts of `error_and_report_share_stdout`,
discharged on a run whose scrape fails (an error write occurs) and a run
that prints a report. -/
theorem error_and_report_share_stdout_witness :
    Channel.stdout = Channel.stdout ∧ Channel.stdout = Channel.stdout := by
  have h1 := error_and_report_share_stdout (fun _ _ => .exc "boom")
    (fun _ => .ok [])
    { nonzero := false, endpoints := some "http://a", metrics := none,
      labels := none, display_labels := none }
  have h2 := error_and_report_share_stdout (fun _ _ => .ok "t")
    (fun _ => .ok [])
    { nonzero := false, endpoints := some "http://a", metrics := none,
      labels := none, display_labels := none }
  exact ⟨h1.1 Channel.stdout "boom" (by decide),
    h2.2 Channel.stdout "[]" (by decide)⟩

end Fctl
